import Mathlib

/-!
# IFLForTLS: the OpenSSL test server `src/openssl_tserver/tserver.c`

A shallow embedding of the server's functions and the properties of its
specification.

Conventions of the embedding.

* Every function returns, next to its C result, the list of the externally
  visible calls it made, in program order (`Event`).  Calls into OpenSSL, the
  socket layer and the logging macros are such events.
* The outcome of an external call is not computed by the program; it is
  supplied by an environment record (`CtxEnv`, `ConnEnv`) or, for `recv`, an
  oracle function.  The implicit conversions at the `recv` call boundary
  (`int` to `size_t` for the length, `ssize_t` to `int` for the result) belong
  to the oracle: it is given the value of the argument expression and yields
  the value stored in `int ret`.
* `NULL` is `none`.
-/

namespace IFLForTLS

/-! ## Data model -/

/-- One octet of a buffer. -/
abbrev Byte := Nat

/-- The two build configurations selected by the preprocessor. -/
inductive Build where
  | WITH_OPENSSL_1_1_1
  | WITH_OPENSSL_1_0_2
  deriving DecidableEq, Repr

/-- Protocol versions known to the OpenSSL generations the source targets. -/
inductive ProtoVersion where
  | SSL3
  | TLS1_0
  | TLS1_1
  | TLS1_2
  | TLS1_3
  deriving DecidableEq, Repr

/-- The server methods named in `create_context`. -/
inductive SSL_METHOD where
  | TLS_server_method
  | TLSv1_2_server_method
  deriving DecidableEq, Repr

/-- The option bits named in `create_context`. -/
inductive SSL_OP where
  | SSL_OP_NO_TLSv1_3
  deriving DecidableEq, Repr

/-- Encodings passed to the file loaders. -/
inductive SSL_FILETYPE where
  | SSL_FILETYPE_PEM
  | SSL_FILETYPE_ASN1
  deriving DecidableEq, Repr

/-- Constants the source takes from `iflfortls_common.h`, which is not part of
the sources at hand; they are parameters of the embedding. -/
structure Consts where
  SERVER_CERT_FILE : String
  SERVER_KEY_FILE : String
  SERVER_IP : String
  SERVER_PORT : Int
  EC_CURVE_NAME : Int
  deriving DecidableEq, Repr

/-- A socket `BIO` as far as `BIO_get_fd` / `BIO_set_fd` see it: OpenSSL's
`sock_ctrl` keeps the descriptor in `num` and marks the object `init` once a
descriptor has been set. -/
structure BIO where
  init : Bool
  num : Int
  deriving DecidableEq, Repr

/-- The part of an `SSL_CTX` that `create_context` establishes. -/
structure SSL_CTX where
  id : Nat
  meth : SSL_METHOD
  options : List SSL_OP
  cert : Option String
  key : Option String
  deriving DecidableEq, Repr

/-- The part of an `SSL` session the connection code depends on: its identity,
the context it was created from and the descriptor of its read `BIO`
(`-1` while there is none, as `SSL_get_fd` reports). -/
structure SSL where
  id : Nat
  ctx : Nat
  fd : Int
  deriving DecidableEq, Repr

/-- Externally visible calls, in the order the program makes them. -/
inductive Event where
  | ERR (msg : String)
  | DBG (msg : String)
  | printf (msg : String)
  | LOG_BIN (buf : List Byte) (len : Int) (label : String)
  | recv (fd : Int) (buf : List Byte) (len : Int) (flags : Int)
  | SSL_CTX_new (meth : SSL_METHOD)
  | SSL_CTX_use_certificate_file (ctx : Nat) (file : String) (type : SSL_FILETYPE)
  | SSL_CTX_use_PrivateKey_file (ctx : Nat) (file : String) (type : SSL_FILETYPE)
  | SSL_CTX_set_options (ctx : Nat) (op : SSL_OP)
  | SSL_CTX_free (ctx : Nat)
  | do_tcp_accept (lfd : Int)
  | SSL_new (ctx : Nat)
  | SSL_set_fd (ssl : Nat) (fd : Int)
  | BIO_s_socket
  | BIO_meth_new
  | BIO_meth_free
  | BIO_new
  | BIO_set_fd (fd : Int)
  | SSL_set_bio (ssl : Nat)
  | EC_KEY_new_by_curve_name (nid : Int)
  | SSL_set_tmp_ecdh (ssl : Nat)
  | EC_KEY_free
  | SSL_get_fd (ssl : Nat)
  | SSL_accept (ssl : Nat)
  | ERR_get_error
  | SSL_free (ssl : Nat)
  | CLOSE_FD (fd : Int)
  deriving DecidableEq, Repr

/-! ## `read_cb` -/

/-- The receive primitive: from the descriptor, the buffer as it stands, the
requested length and the flags, the value stored in `ret` and the buffer
contents afterwards. -/
abbrev RecvPrim := Int → List Byte → Int → Int → Int × List Byte

/-- What `BIO_get_fd(bio, &fd)` stores through its pointer argument: the
descriptor of an initialised socket `BIO`, nothing otherwise. -/
def BIO_get_fd (bio : BIO) : Option Int :=
  if bio.init then some bio.num else none

/-- Result of one `read_cb` call: the returned `int`, the caller's buffer on
return and the calls made. -/
structure ReadOut where
  ret : Int
  buf : List Byte
  events : List Event
  deriving DecidableEq, Repr

/-- `read_cb` (tserver.c:67-79). -/
def read_cb (recv : RecvPrim) (bio : BIO) (buf : List Byte) (buf_len : Int) : ReadOut :=
  -- int fd = -1; BIO_get_fd(bio, &fd);
  let fd : Int := (BIO_get_fd bio).getD (-1)
  if fd ≥ 0 then
    -- ret = recv(fd, buf, buf_len, 0);
    let r := recv fd buf buf_len 0
    let ret := r.1
    let buf1 := r.2
    -- LOG_BIN((uint8_t *)buf, ret, "READ_CB"); return ret;
    { ret := ret
      buf := buf1
      events := [Event.recv fd buf buf_len 0, Event.LOG_BIN buf1 ret "READ_CB"] }
  else
    -- DBG("read_cb: Invalid fd\n"); return -1;
    { ret := -1
      buf := buf
      events := [Event.DBG "read_cb: Invalid fd\n"] }

/-- Is the event a call of the receive primitive? -/
def Event.isRecv : Event → Bool
  | Event.recv _ _ _ _ => true
  | _ => false

/-- Is the event a binary capture? -/
def Event.isLogBin : Event → Bool
  | Event.LOG_BIN _ _ _ => true
  | _ => false

/-- Modelled from the spec: the `LOG_BIN` macro lives in `iflfortls_log.h`,
which is not part of the sources at hand.  Following the Diagnostics Sink
interface `emitBinary(label, bytes)` and "a labeled raw capture of exactly the
bytes received", a capture of length `len` over a buffer emits the first `len`
octets of that buffer, and none when `len` is not positive. -/
def LOG_BIN_bytes (buf : List Byte) (len : Int) : List Byte :=
  buf.take len.toNat

/-- The octets the Diagnostics Sink has received through the binary captures
of a trace, in order. -/
def sinkBytes : List Event → List Byte
  | [] => []
  | Event.LOG_BIN buf len _ :: es => LOG_BIN_bytes buf len ++ sinkBytes es
  | _ :: es => sinkBytes es

/-- The octets a read hands to its caller: the first `ret` octets of the
buffer when `ret` is positive, none for end-of-stream or an error. -/
def delivered (o : ReadOut) : List Byte :=
  o.buf.take o.ret.toNat

/-- One read request together with the behaviour of the receive primitive at
that moment. -/
structure ReadCall where
  recv : RecvPrim
  bio : BIO
  buf : List Byte
  buf_len : Int

/-- A sequence of reads through the adapter: the outcome of each call, in
order. -/
def runReads : List ReadCall → List ReadOut
  | [] => []
  | c :: cs => read_cb c.recv c.bio c.buf c.buf_len :: runReads cs

/-- The trace of a sequence of reads. -/
def readsTrace (cs : List ReadCall) : List Event :=
  ((runReads cs).map ReadOut.events).flatten

/-! ## `create_context` -/

/-- Outcomes of the OpenSSL calls made by `create_context`: the handle
`SSL_CTX_new` returns (`none` for `NULL`) and the return values of the two
file loaders. -/
structure CtxEnv where
  SSL_CTX_new : Option Nat
  SSL_CTX_use_certificate_file : Int
  SSL_CTX_use_PrivateKey_file : Int
  deriving DecidableEq, Repr

/-- The method chosen by the preprocessor branch at tserver.c:26-32. -/
def server_method : Build → SSL_METHOD
  | Build.WITH_OPENSSL_1_1_1 => SSL_METHOD.TLS_server_method
  | Build.WITH_OPENSSL_1_0_2 => SSL_METHOD.TLSv1_2_server_method

/-- `create_context` (tserver.c:21-65). -/
def create_context (b : Build) (k : Consts) (env : CtxEnv) : Option SSL_CTX × List Event :=
  let meth := server_method b
  -- ctx = SSL_CTX_new(meth);
  match env.SSL_CTX_new with
  | none =>
    (none, [Event.SSL_CTX_new meth, Event.ERR "SSL ctx new failed\n"])
  | some id =>
    let ctx0 : SSL_CTX := { id := id, meth := meth, options := [], cert := none, key := none }
    let ev1 := [Event.SSL_CTX_new meth, Event.DBG "SSL context created\n",
      Event.SSL_CTX_use_certificate_file id k.SERVER_CERT_FILE SSL_FILETYPE.SSL_FILETYPE_PEM]
    if env.SSL_CTX_use_certificate_file ≠ 1 then
      -- goto err: SSL_CTX_free(ctx); return NULL;
      (none, ev1 ++ [Event.ERR "Load Server cert %s failed\n", Event.SSL_CTX_free id])
    else
      let ctx1 : SSL_CTX := { ctx0 with cert := some k.SERVER_CERT_FILE }
      let ev2 := ev1 ++ [Event.DBG "Loaded server cert %s on context\n",
        Event.SSL_CTX_use_PrivateKey_file id k.SERVER_KEY_FILE SSL_FILETYPE.SSL_FILETYPE_ASN1]
      if env.SSL_CTX_use_PrivateKey_file ≠ 1 then
        -- goto err: SSL_CTX_free(ctx); return NULL;
        (none, ev2 ++ [Event.ERR "Load Server key %s failed\n", Event.SSL_CTX_free id])
      else
        let ctx2 : SSL_CTX := { ctx1 with key := some k.SERVER_KEY_FILE }
        let ev3 := ev2 ++ [Event.DBG "Loaded server key %s on context\n"]
        match b with
        | Build.WITH_OPENSSL_1_1_1 =>
          -- SSL_CTX_set_options(ctx, SSL_OP_NO_TLSv1_3);
          (some { ctx2 with options := SSL_OP.SSL_OP_NO_TLSv1_3 :: ctx2.options },
           ev3 ++ [Event.SSL_CTX_set_options id SSL_OP.SSL_OP_NO_TLSv1_3,
                   Event.DBG "SSL context configurations completed\n"])
        | Build.WITH_OPENSSL_1_0_2 =>
          (some ctx2, ev3 ++ [Event.DBG "SSL context configurations completed\n"])

/-- Is the event a certificate or private-key load? -/
def Event.isLoad : Event → Bool
  | Event.SSL_CTX_use_certificate_file _ _ _ => true
  | Event.SSL_CTX_use_PrivateKey_file _ _ _ => true
  | _ => false

/-- Is the event a private-key load? -/
def Event.isKeyLoad : Event → Bool
  | Event.SSL_CTX_use_PrivateKey_file _ _ _ => true
  | _ => false

/-- A trace without its text log entries: the calls that act on resources. -/
def calls (es : List Event) : List Event :=
  es.filter fun e =>
    match e with
    | Event.ERR _ => false
    | Event.DBG _ => false
    | Event.printf _ => false
    | _ => true

/-! ### Protocol versions a context negotiates

OpenSSL is an external library.  Its documented behaviour is used here: a
version-specific method offers exactly its version, the version-flexible
method offers every version the library build supports, and an
`SSL_OP_NO_...` option removes its version from the offer. -/

/-- The versions the version-flexible `TLS_server_method` of an upstream
default OpenSSL 1.1.1 build offers (SSLv3 is compiled out by default). -/
def openssl_1_1_1_versions : List ProtoVersion :=
  [ProtoVersion.TLS1_0, ProtoVersion.TLS1_1, ProtoVersion.TLS1_2, ProtoVersion.TLS1_3]

/-- The versions a method offers, given what the flexible method offers. -/
def SSL_METHOD.versions (flex : List ProtoVersion) : SSL_METHOD → List ProtoVersion
  | SSL_METHOD.TLS_server_method => flex
  | SSL_METHOD.TLSv1_2_server_method => [ProtoVersion.TLS1_2]

/-- Does the option switch the version off? -/
def SSL_OP.disables : SSL_OP → ProtoVersion → Bool
  | SSL_OP.SSL_OP_NO_TLSv1_3, ProtoVersion.TLS1_3 => true
  | _, _ => false

/-- The versions negotiable under a context. -/
def negotiable (flex : List ProtoVersion) (ctx : SSL_CTX) : List ProtoVersion :=
  (ctx.meth.versions flex).filter fun v => !ctx.options.any fun o => o.disables v

/-- The version the server is meant to speak (`tls12_server`). -/
def pinned : ProtoVersion := ProtoVersion.TLS1_2

/-! ## Per-connection code -/

/-- Outcomes of the external calls made while one connection is handled, and
the indeterminate content of the local `fd` of `do_tls_connection`, which is
declared without an initialiser (tserver.c:197) and read at `CLOSE_FD(fd)`
on the paths that jump to `err` before it is assigned. -/
structure ConnEnv where
  do_tcp_accept : Int
  SSL_new : Option Nat
  BIO_s_socket : Bool
  BIO_meth_new : Bool
  BIO_new : Bool
  EC_KEY_new_by_curve_name : Bool
  SSL_accept : Int
  fd_uninit : Int
  deriving DecidableEq, Repr

/-- `bio_with_custom_cb_1_1_1` (tserver.c:82-103).  The `BIO_meth_set_*` calls
fill the fresh method table (read with `read_cb`, the rest with the socket
method's entries) and have no outcome the caller inspects. -/
def bio_with_custom_cb_1_1_1 (env : ConnEnv) : Option BIO × List Event :=
  if !env.BIO_s_socket || !env.BIO_meth_new then
    (none, [Event.BIO_s_socket, Event.BIO_meth_new, Event.BIO_meth_free,
            Event.ERR "BIO meth creation failed\n"])
  else
    ((if env.BIO_new then some { init := false, num := 0 } else none),
     [Event.BIO_s_socket, Event.BIO_meth_new, Event.BIO_new])

/-- `bio_with_custom_cb_1_0_2` (tserver.c:105-113): a copy of the socket
method table with `bread` replaced by `read_cb`, handed to `BIO_new`. -/
def bio_with_custom_cb_1_0_2 (env : ConnEnv) : Option BIO × List Event :=
  ((if env.BIO_new then some { init := false, num := 0 } else none),
   [Event.BIO_s_socket, Event.BIO_new])

/-- `bio_with_custom_cb` (tserver.c:118-125). -/
def bio_with_custom_cb (b : Build) (env : ConnEnv) : Option BIO × List Event :=
  match b with
  | Build.WITH_OPENSSL_1_1_1 => bio_with_custom_cb_1_1_1 env
  | Build.WITH_OPENSSL_1_0_2 => bio_with_custom_cb_1_0_2 env

/-- `BIO_set_fd(bio, fd, BIO_NOCLOSE)` on a socket `BIO`. -/
def BIO_set_fd (_bio : BIO) (fd : Int) : BIO :=
  { init := true, num := fd }

/-- Result of `register_sock_cb`: the returned `int`, the session afterwards
and the calls made. -/
structure RegOut where
  ret : Int
  ssl : SSL
  events : List Event
  deriving DecidableEq, Repr

/-- `register_sock_cb` (tserver.c:127-141). -/
def register_sock_cb (b : Build) (env : ConnEnv) (ssl : SSL) (fd : Int) : RegOut :=
  let r := bio_with_custom_cb b env
  match r.1 with
  | none =>
    { ret := -1, ssl := ssl, events := r.2 ++ [Event.ERR "BIO new failed\n"] }
  | some bio =>
    let bio1 := BIO_set_fd bio fd
    -- SSL_set_bio(ssl, bio, bio): the session now reads through `bio`
    { ret := 0
      ssl := { ssl with fd := (BIO_get_fd bio1).getD (-1) }
      events := r.2 ++ [Event.BIO_set_fd fd, Event.SSL_set_bio ssl.id,
                        Event.DBG "BIO callback set successfully\n"] }

/-- `config_ecdhe_keypair` (tserver.c:143-155). -/
def config_ecdhe_keypair (k : Consts) (env : ConnEnv) (ssl : SSL) : Int × List Event :=
  if !env.EC_KEY_new_by_curve_name then
    (-1, [Event.EC_KEY_new_by_curve_name k.EC_CURVE_NAME,
          Event.printf "ECDH generation failed\n"])
  else
    (0, [Event.EC_KEY_new_by_curve_name k.EC_CURVE_NAME, Event.SSL_set_tmp_ecdh ssl.id,
         Event.EC_KEY_free])

/-- `create_ssl_object` (tserver.c:157-190).  Both the `BIO` that `SSL_set_fd`
installs and the one `register_sock_cb` installs hold the descriptor with
`BIO_NOCLOSE`, so `SSL_free` releases the session and leaves the descriptor
open. -/
def create_ssl_object (b : Build) (k : Consts) (env : ConnEnv) (ctx : SSL_CTX) (lfd : Int) :
    Option SSL × List Event :=
  -- fd = do_tcp_accept(lfd);
  let fd := env.do_tcp_accept
  if fd < 0 then
    (none, [Event.do_tcp_accept lfd, Event.ERR "TCP connection establishment failed\n"])
  else
    -- ssl = SSL_new(ctx);
    match env.SSL_new with
    | none =>
      (none, [Event.do_tcp_accept lfd, Event.SSL_new ctx.id,
              Event.ERR "SSL object creation failed\n"])
    | some id =>
      -- SSL_set_fd(ssl, fd);
      let ssl0 : SSL := { id := id, ctx := ctx.id, fd := fd }
      let ev1 := [Event.do_tcp_accept lfd, Event.SSL_new ctx.id, Event.SSL_set_fd id fd]
      let reg := register_sock_cb b env ssl0 fd
      if reg.ret ≠ 0 then
        -- goto err: SSL_free(ssl); return NULL;
        (none, ev1 ++ reg.events ++ [Event.ERR "Registering sock cb failed\n",
                                     Event.SSL_free id])
      else
        let ec := config_ecdhe_keypair k env reg.ssl
        if ec.1 ≠ 0 then
          -- goto err: SSL_free(ssl); return NULL;
          (none, ev1 ++ reg.events ++ ec.2 ++ [Event.SSL_free id])
        else
          (some reg.ssl, ev1 ++ reg.events ++ ec.2 ++
            [Event.DBG "SSL object creation finished\n"])

/-- Modelled from the spec: the `CLOSE_FD` macro comes from a header that is
not part of the sources at hand.  Following the Transport Provider interface
`close(endpoint)`, `CLOSE_FD(fd)` closes the descriptor whose number is the
value of `fd`; it is recorded as the event `Event.CLOSE_FD fd`. -/
def CLOSE_FD (fd : Int) : List Event :=
  [Event.CLOSE_FD fd]

/-- `do_tls_connection` (tserver.c:194-227). -/
def do_tls_connection (b : Build) (k : Consts) (env : ConnEnv) (ctx : SSL_CTX) (lfd : Int) :
    Int × List Event :=
  -- SSL *ssl = NULL; int fd; int ret;
  let fd0 := env.fd_uninit
  let r := create_ssl_object b k env ctx lfd
  match r.1 with
  | none =>
    -- goto err with ssl == NULL and fd never assigned
    (-1, r.2 ++ [Event.ERR_get_error, Event.ERR "TLS ERR: %s\n"] ++ CLOSE_FD fd0)
  | some ssl =>
    -- fd = SSL_get_fd(ssl);
    let fd := ssl.fd
    -- ret = SSL_accept(ssl);
    let ret := env.SSL_accept
    let ev := r.2 ++ [Event.SSL_get_fd ssl.id, Event.SSL_accept ssl.id]
    if ret ≠ 1 then
      -- err: if (ssl) SSL_free(ssl); CLOSE_FD(fd); return -1;
      (-1, ev ++ [Event.ERR "SSL accept failed%d\n", Event.ERR_get_error,
                  Event.ERR "TLS ERR: %s\n", Event.SSL_free ssl.id] ++ CLOSE_FD fd)
    else
      -- SSL_free(ssl); CLOSE_FD(fd); return 0;
      (0, ev ++ [Event.DBG "SSL accept succeeded\n", Event.DBG "SSL accept succeeded\n",
                 Event.SSL_free ssl.id] ++ CLOSE_FD fd)

/-- The setup of a connection succeeds: the accept, the session creation, the
adapter registration and the key-exchange configuration all do. -/
def setup_ok (b : Build) (env : ConnEnv) : Bool :=
  decide (0 ≤ env.do_tcp_accept) && env.SSL_new.isSome
    && (bio_with_custom_cb b env).1.isSome && env.EC_KEY_new_by_curve_name

/-- Is the event the handshake call? -/
def Event.isHandshake : Event → Bool
  | Event.SSL_accept _ => true
  | _ => false

/-- Is the event a descriptor close? -/
def Event.isClose : Event → Bool
  | Event.CLOSE_FD _ => true
  | _ => false

/-- Is the event a session release? -/
def Event.isFree : Event → Bool
  | Event.SSL_free _ => true
  | _ => false

/-! ## `tls12_server` -/

/-- Calls made by `tls12_server` itself.  A call of `create_context` or
`do_tls_connection` carries its arguments, the trace of the callee and its
result. -/
inductive SrvEvent where
  | create_context (trace : List Event) (ret : Option SSL_CTX)
  | do_tcp_listen (ip : String) (port : Int) (ret : Int)
  | do_tls_connection (ctx : SSL_CTX) (lfd : Int) (trace : List Event) (ret : Int)
  | ERR (msg : String)
  | DBG (msg : String)
  | CLOSE_FD (fd : Int)
  | SSL_CTX_free (ctx : Nat)
  deriving DecidableEq, Repr

/-- Outcomes of the external calls of a server run: those of `create_context`,
the result of `do_tcp_listen`, and for the `i`-th loop iteration those of its
connection. -/
structure SrvEnv where
  ctx : CtxEnv
  do_tcp_listen : Int
  conn : Nat → ConnEnv

/-- The body of the loop of `tls12_server` (tserver.c:246-250) in iteration
number `i`: one `do_tls_connection` call and a log line chosen by its
result. -/
def loop_body (b : Build) (k : Consts) (conn : Nat → ConnEnv) (ctx : SSL_CTX) (lfd : Int)
    (i : Nat) : List SrvEvent :=
  let r := do_tls_connection b k (conn i) ctx lfd
  [SrvEvent.do_tls_connection ctx lfd r.2 r.1,
   if r.1 ≠ 0 then SrvEvent.ERR "TLS connection failed\n\n\n"
   else SrvEvent.DBG "TLS connection SUCCEEDED\n\n\n"]

/-- The `do { ... } while(1);` loop of `tls12_server` (tserver.c:245-251)
followed by the statements after it (tserver.c:253-255), run for at most
`fuel` iterations starting with iteration number `i`.  The result is `none`
when the loop is still running after `fuel` iterations, and the value
returned otherwise. -/
def accept_loop (b : Build) (k : Consts) (conn : Nat → ConnEnv) (ctx : SSL_CTX) (lfd : Int) :
    Nat → Nat → Option Int × List SrvEvent
  | 0, _ => (none, [])
  | fuel + 1, i =>
    let body := loop_body b k conn ctx lfd i
    -- while (1)
    if (1 : Int) ≠ 0 then
      let rest := accept_loop b k conn ctx lfd fuel (i + 1)
      (rest.1, body ++ rest.2)
    else
      -- CLOSE_FD(lfd); SSL_CTX_free(ctx); return 0;
      (some 0, body ++ [SrvEvent.CLOSE_FD lfd, SrvEvent.SSL_CTX_free ctx.id])

/-- `tls12_server` (tserver.c:229-259), its loop bounded by `fuel`. -/
def tls12_server (b : Build) (k : Consts) (env : SrvEnv) (fuel : Nat) :
    Option Int × List SrvEvent :=
  -- ctx = create_context();
  let c := create_context b k env.ctx
  match c.1 with
  | none => (some (-1), [SrvEvent.create_context c.2 none])
  | some ctx =>
    -- lfd = do_tcp_listen(SERVER_IP, SERVER_PORT);
    let lfd := env.do_tcp_listen
    let ev := [SrvEvent.create_context c.2 (some ctx),
               SrvEvent.do_tcp_listen k.SERVER_IP k.SERVER_PORT lfd]
    if lfd < 0 then
      -- goto err: CLOSE_FD(lfd); return -1;
      (some (-1), ev ++ [SrvEvent.ERR "TCP listen socket creation failed\n",
                         SrvEvent.CLOSE_FD lfd])
    else
      let l := accept_loop b k env.conn ctx lfd fuel 0
      (l.1, ev ++ l.2)

/-- Is the event a call of `create_context`? -/
def SrvEvent.isCreateContext : SrvEvent → Bool
  | SrvEvent.create_context _ _ => true
  | _ => false

/-- Is the event a call of `do_tcp_listen`? -/
def SrvEvent.isListen : SrvEvent → Bool
  | SrvEvent.do_tcp_listen _ _ _ => true
  | _ => false

/-- Is the event a call of `do_tls_connection`? -/
def SrvEvent.isConnection : SrvEvent → Bool
  | SrvEvent.do_tls_connection _ _ _ _ => true
  | _ => false

/-- Is the event a release of the listening descriptor or of the context by
`tls12_server`? -/
def SrvEvent.isRelease : SrvEvent → Bool
  | SrvEvent.CLOSE_FD _ => true
  | SrvEvent.SSL_CTX_free _ => true
  | _ => false

/-- Every external call of a server run in program order: the calls made
inside `create_context` and `do_tls_connection` in place of the call itself,
and the releases `tls12_server` makes on its own. -/
def flatTrace : List SrvEvent → List Event
  | [] => []
  | SrvEvent.create_context trace _ :: es => trace ++ flatTrace es
  | SrvEvent.do_tls_connection _ _ trace _ :: es => trace ++ flatTrace es
  | SrvEvent.CLOSE_FD fd :: es => Event.CLOSE_FD fd :: flatTrace es
  | SrvEvent.SSL_CTX_free ctx :: es => Event.SSL_CTX_free ctx :: flatTrace es
  | SrvEvent.ERR msg :: es => Event.ERR msg :: flatTrace es
  | SrvEvent.DBG msg :: es => Event.DBG msg :: flatTrace es
  | SrvEvent.do_tcp_listen _ _ _ :: es => flatTrace es

/-- The arguments of the `do_tls_connection` calls of a trace, in order. -/
def connectionArgs : List SrvEvent → List (SSL_CTX × Int)
  | [] => []
  | SrvEvent.do_tls_connection ctx lfd _ _ :: es => (ctx, lfd) :: connectionArgs es
  | _ :: es => connectionArgs es

/-- The results of the `do_tls_connection` calls of a trace, in order. -/
def connectionResults : List SrvEvent → List Int
  | [] => []
  | SrvEvent.do_tls_connection _ _ _ ret :: es => ret :: connectionResults es
  | _ :: es => connectionResults es

/-! ## Sample inputs -/

/-- Sample values for the constants of `iflfortls_common.h`. -/
def sampleConsts : Consts :=
  { SERVER_CERT_FILE := "cert.pem", SERVER_KEY_FILE := "key.der",
    SERVER_IP := "127.0.0.1", SERVER_PORT := 7788, EC_CURVE_NAME := 415 }

/-- A sample context as `create_context` returns it in the 1.1.1 build. -/
def sampleCtx : SSL_CTX :=
  { id := 1, meth := SSL_METHOD.TLS_server_method, options := [SSL_OP.SSL_OP_NO_TLSv1_3],
    cert := some "cert.pem", key := some "key.der" }

/-- A connection on which every step succeeds: the accept yields descriptor
`5`, the session gets handle `9`, and the handshake returns `1`. -/
def goodConn : ConnEnv :=
  { do_tcp_accept := 5, SSL_new := some 9, BIO_s_socket := true, BIO_meth_new := true,
    BIO_new := true, EC_KEY_new_by_curve_name := true, SSL_accept := 1, fd_uninit := -1 }

/-- A server run in which the context is built, the listening descriptor is
`3` and every connection is a `goodConn`. -/
def goodSrv : SrvEnv :=
  { ctx := { SSL_CTX_new := some 1, SSL_CTX_use_certificate_file := 1,
             SSL_CTX_use_PrivateKey_file := 1 }
    do_tcp_listen := 3
    conn := fun _ => goodConn }

/-- A server run in which the context is built and the listening descriptor
is `3`, whose first connection fails at the TCP accept while the
never-assigned local `fd` of `do_tls_connection` holds `3`; every later
connection is a `goodConn`. -/
def strayCloseSrv : SrvEnv :=
  { ctx := goodSrv.ctx
    do_tcp_listen := 3
    conn := fun i => if i = 0 then { goodConn with do_tcp_accept := -1, fd_uninit := 3 }
                     else goodConn }

/-! ## Theorems about `read_cb` -/

/-- The sink receives the octets of a trace piece by piece. -/
theorem sinkBytes_append (xs ys : List Event) :
    sinkBytes (xs ++ ys) = sinkBytes xs ++ sinkBytes ys := by
  induction xs with
  | nil => rfl
  | cons e es ih => cases e <;> simp [sinkBytes, ih]

/-- One read emits to the sink exactly the octets it delivers. -/
theorem read_cb_sink_eq_delivered (recv : RecvPrim) (bio : BIO) (buf : List Byte)
    (buf_len : Int) :
    sinkBytes (read_cb recv bio buf buf_len).events
      = delivered (read_cb recv bio buf buf_len) := by
  by_cases h : (BIO_get_fd bio).getD (-1) ≥ 0 <;>
    simp [read_cb, h, sinkBytes, delivered, LOG_BIN_bytes]

/-- C1: when the descriptor of the BIO resolves to `fd ≥ 0`, `read_cb` calls
the receive primitive exactly once, on `(fd, buf, buf_len)`; it returns the
value `r` the primitive returned, whatever its sign; and after that call and
before returning it emits exactly one binary capture, labelled `READ_CB`,
whose length is `r` (not `buf_len`) over the buffer as the primitive left it. -/
theorem read_cb_passthrough (recv : RecvPrim) (bio : BIO) (fd : Int)
    (buf : List Byte) (buf_len : Int)
    (hres : BIO_get_fd bio = some fd) (hfd : 0 ≤ fd) :
    (read_cb recv bio buf buf_len).ret = (recv fd buf buf_len 0).1
    ∧ (read_cb recv bio buf buf_len).buf = (recv fd buf buf_len 0).2
    ∧ (read_cb recv bio buf buf_len).events
        = [Event.recv fd buf buf_len 0,
           Event.LOG_BIN (recv fd buf buf_len 0).2 (recv fd buf buf_len 0).1 "READ_CB"]
    ∧ (read_cb recv bio buf buf_len).events.filter Event.isRecv
        = [Event.recv fd buf buf_len 0]
    ∧ (read_cb recv bio buf buf_len).events.filter Event.isLogBin
        = [Event.LOG_BIN (recv fd buf buf_len 0).2 (recv fd buf buf_len 0).1 "READ_CB"] := by
  simp [read_cb, hres, hfd, Event.isRecv, Event.isLogBin]

/-- Witness for C1: descriptor 4, a request of 8 octets, the primitive
returning 3 octets. -/
theorem read_cb_passthrough_witness :
    BIO_get_fd { init := true, num := 4 } = some 4 ∧ (0 : Int) ≤ 4
    ∧ (read_cb (fun _ _ _ _ => (3, [22, 3, 1])) { init := true, num := 4 } [] 8).ret = 3
    ∧ (read_cb (fun _ _ _ _ => (3, [22, 3, 1])) { init := true, num := 4 } [] 8).events
        = [Event.recv 4 [] 8 0, Event.LOG_BIN [22, 3, 1] 3 "READ_CB"] :=
  ⟨rfl, by decide,
   (read_cb_passthrough (fun _ _ _ _ => (3, [22, 3, 1])) { init := true, num := 4 } 4 [] 8
      rfl (by decide)).1,
   (read_cb_passthrough (fun _ _ _ _ => (3, [22, 3, 1])) { init := true, num := 4 } 4 [] 8
      rfl (by decide)).2.2.1⟩

/-- C2: for every finite sequence of reads through the adapter, with any
requested sizes and any results of the receive primitive, the octets emitted
to the Diagnostics Sink, concatenated, are the octets delivered to the caller
by those reads, concatenated in the same order. -/
theorem capture_fidelity (cs : List ReadCall) :
    sinkBytes (readsTrace cs) = ((runReads cs).map delivered).flatten := by
  induction cs with
  | nil => rfl
  | cons c cs ih =>
    simp only [readsTrace, runReads, List.map_cons, List.flatten_cons] at ih ⊢
    rw [sinkBytes_append, read_cb_sink_eq_delivered, ih]

/-- C3: when the descriptor of the BIO cannot be resolved (nothing is stored,
so `fd` keeps `-1`, or the stored value is negative), `read_cb` does not call
the receive primitive, emits no binary capture, leaves the buffer as it was
and returns `-1`. -/
theorem read_cb_unresolved (recv : RecvPrim) (bio : BIO) (buf : List Byte)
    (buf_len : Int)
    (hres : BIO_get_fd bio = none ∨ ∃ fd, BIO_get_fd bio = some fd ∧ fd < 0) :
    (read_cb recv bio buf buf_len).ret = -1
    ∧ (read_cb recv bio buf buf_len).buf = buf
    ∧ (read_cb recv bio buf buf_len).events.filter Event.isRecv = []
    ∧ (read_cb recv bio buf buf_len).events.filter Event.isLogBin = []
    ∧ (read_cb recv bio buf buf_len).events = [Event.DBG "read_cb: Invalid fd\n"] := by
  rcases hres with h | ⟨fd, h, hneg⟩
  · simp [read_cb, h, Event.isRecv, Event.isLogBin]
  · have : ¬ (0 ≤ fd) := by omega
    simp [read_cb, h, this, Event.isRecv, Event.isLogBin]

/-- Witness for C3: a BIO on which no descriptor was ever set. -/
theorem read_cb_unresolved_witness :
    BIO_get_fd { init := false, num := 0 } = none
    ∧ (read_cb (fun _ _ _ _ => (3, [22, 3, 1])) { init := false, num := 0 } [9, 9] 2).ret = -1
    ∧ (read_cb (fun _ _ _ _ => (3, [22, 3, 1])) { init := false, num := 0 } [9, 9] 2).buf
        = [9, 9] :=
  ⟨rfl,
   (read_cb_unresolved (fun _ _ _ _ => (3, [22, 3, 1])) { init := false, num := 0 } [9, 9] 2
      (Or.inl rfl)).1,
   (read_cb_unresolved (fun _ _ _ _ => (3, [22, 3, 1])) { init := false, num := 0 } [9, 9] 2
      (Or.inl rfl)).2.1⟩

/-! ## Theorems about `create_context` -/

/-- In the build on the version-specific method, a returned context
negotiates the pinned version and nothing else, whatever the library's
flexible method would offer. -/
theorem create_context_1_0_2_negotiable (flex : List ProtoVersion) (k : Consts) (env : CtxEnv)
    (ctx : SSL_CTX) (h : (create_context Build.WITH_OPENSSL_1_0_2 k env).1 = some ctx) :
    negotiable flex ctx = [pinned] := by
  rcases env with ⟨n, c, p⟩
  cases n with
  | none => simp [create_context] at h
  | some id =>
    by_cases hc : c = 1 <;> by_cases hp : p = 1 <;>
      simp [create_context, hc, hp, server_method] at h
    subst h
    simp [negotiable, SSL_METHOD.versions, pinned]

/-- C4, evaluated on the code: in the build on `TLS_server_method` with
`SSL_OP_NO_TLSv1_3`, when allocation and both loads succeed `create_context`
returns a context under which an upstream default OpenSSL 1.1.1 negotiates
TLS 1.0, TLS 1.1 and TLS 1.2: three versions, not the pinned one alone. -/
theorem create_context_1_1_1_negotiable (k : Consts) (id : Nat) :
    ∃ ctx,
      (create_context Build.WITH_OPENSSL_1_1_1 k
        { SSL_CTX_new := some id, SSL_CTX_use_certificate_file := 1,
          SSL_CTX_use_PrivateKey_file := 1 }).1 = some ctx
      ∧ negotiable openssl_1_1_1_versions ctx
          = [ProtoVersion.TLS1_0, ProtoVersion.TLS1_1, ProtoVersion.TLS1_2]
      ∧ negotiable openssl_1_1_1_versions ctx ≠ [pinned] := by
  refine ⟨_, rfl, ?_, ?_⟩ <;>
    simp [negotiable, SSL_METHOD.versions, server_method, openssl_1_1_1_versions,
      SSL_OP.disables, pinned]

/-- C5: `create_context` returns a context exactly when allocation, the
certificate load and the private-key load succeeded.  When allocation fails
nothing is loaded and nothing is freed; when the certificate load fails the
private key is never loaded; and when either load fails the allocated context
is freed exactly once, as the last call, and `NULL` is returned.  A returned
context carries both the certificate and the key, was loaded in the order
certificate, key, and has not been freed. -/
theorem create_context_all_or_nothing (b : Build) (k : Consts) (env : CtxEnv) :
    ((create_context b k env).1.isSome = true ↔
        env.SSL_CTX_new.isSome = true ∧ env.SSL_CTX_use_certificate_file = 1
          ∧ env.SSL_CTX_use_PrivateKey_file = 1)
    ∧ (env.SSL_CTX_new = none →
        (create_context b k env).1 = none
        ∧ (create_context b k env).2.filter Event.isLoad = []
        ∧ calls (create_context b k env).2 = [Event.SSL_CTX_new (server_method b)])
    ∧ (∀ id, env.SSL_CTX_new = some id → env.SSL_CTX_use_certificate_file ≠ 1 →
        (create_context b k env).1 = none
        ∧ (create_context b k env).2.filter Event.isKeyLoad = []
        ∧ (create_context b k env).2.count (Event.SSL_CTX_free id) = 1
        ∧ calls (create_context b k env).2
            = [Event.SSL_CTX_new (server_method b),
               Event.SSL_CTX_use_certificate_file id k.SERVER_CERT_FILE
                 SSL_FILETYPE.SSL_FILETYPE_PEM,
               Event.SSL_CTX_free id])
    ∧ (∀ id, env.SSL_CTX_new = some id → env.SSL_CTX_use_certificate_file = 1 →
        env.SSL_CTX_use_PrivateKey_file ≠ 1 →
        (create_context b k env).1 = none
        ∧ (create_context b k env).2.count (Event.SSL_CTX_free id) = 1
        ∧ calls (create_context b k env).2
            = [Event.SSL_CTX_new (server_method b),
               Event.SSL_CTX_use_certificate_file id k.SERVER_CERT_FILE
                 SSL_FILETYPE.SSL_FILETYPE_PEM,
               Event.SSL_CTX_use_PrivateKey_file id k.SERVER_KEY_FILE
                 SSL_FILETYPE.SSL_FILETYPE_ASN1,
               Event.SSL_CTX_free id])
    ∧ (∀ ctx, (create_context b k env).1 = some ctx →
        env.SSL_CTX_new = some ctx.id
        ∧ ctx.cert = some k.SERVER_CERT_FILE ∧ ctx.key = some k.SERVER_KEY_FILE
        ∧ (create_context b k env).2.count (Event.SSL_CTX_free ctx.id) = 0
        ∧ (calls (create_context b k env).2).take 3
            = [Event.SSL_CTX_new (server_method b),
               Event.SSL_CTX_use_certificate_file ctx.id k.SERVER_CERT_FILE
                 SSL_FILETYPE.SSL_FILETYPE_PEM,
               Event.SSL_CTX_use_PrivateKey_file ctx.id k.SERVER_KEY_FILE
                 SSL_FILETYPE.SSL_FILETYPE_ASN1]) := by
  rcases env with ⟨n, c, p⟩
  cases n with
  | none => simp [create_context, calls, Event.isLoad]
  | some id =>
    by_cases hc : c = 1 <;> by_cases hp : p = 1 <;> cases b <;>
      simp [create_context, calls, hc, hp, Event.isKeyLoad, server_method]

/-- Witness for C5: the certificate file cannot be loaded. -/
theorem create_context_all_or_nothing_witness :
    (create_context Build.WITH_OPENSSL_1_1_1
        { SERVER_CERT_FILE := "cert.pem", SERVER_KEY_FILE := "key.der",
          SERVER_IP := "127.0.0.1", SERVER_PORT := 7788, EC_CURVE_NAME := 415 }
        { SSL_CTX_new := some 1, SSL_CTX_use_certificate_file := 0,
          SSL_CTX_use_PrivateKey_file := 1 }).1 = none
    ∧ (create_context Build.WITH_OPENSSL_1_1_1
        { SERVER_CERT_FILE := "cert.pem", SERVER_KEY_FILE := "key.der",
          SERVER_IP := "127.0.0.1", SERVER_PORT := 7788, EC_CURVE_NAME := 415 }
        { SSL_CTX_new := some 1, SSL_CTX_use_certificate_file := 0,
          SSL_CTX_use_PrivateKey_file := 1 }).2.count (Event.SSL_CTX_free 1) = 1 :=
  ⟨((create_context_all_or_nothing Build.WITH_OPENSSL_1_1_1 _ _).2.2.1 1 rfl (by decide)).1,
   ((create_context_all_or_nothing Build.WITH_OPENSSL_1_1_1 _ _).2.2.1 1 rfl (by decide)).2.2.1⟩

/-! ## Theorems about the per-connection code -/

/-- Whether `register_sock_cb` fails depends on the build and the outcomes of
the `BIO` calls only. -/
theorem register_sock_cb_ret (b : Build) (env : ConnEnv) (ssl : SSL) (fd : Int) :
    (register_sock_cb b env ssl fd).ret
      = if (bio_with_custom_cb b env).1.isSome then 0 else -1 := by
  unfold register_sock_cb
  cases h : (bio_with_custom_cb b env).1 <;> simp [h]

/-- Whether `config_ecdhe_keypair` fails depends on the outcome of the key
generation only. -/
theorem config_ecdhe_keypair_ret (k : Consts) (env : ConnEnv) (ssl : SSL) :
    (config_ecdhe_keypair k env ssl).1 = if env.EC_KEY_new_by_curve_name then 0 else -1 := by
  unfold config_ecdhe_keypair
  cases env.EC_KEY_new_by_curve_name <;> simp

/-- After a successful registration the session reads from the descriptor it
was given. -/
theorem register_sock_cb_fd (b : Build) (env : ConnEnv) (ssl : SSL) (fd : Int)
    (h : (register_sock_cb b env ssl fd).ret = 0) :
    (register_sock_cb b env ssl fd).ssl.fd = fd
    ∧ (register_sock_cb b env ssl fd).ssl.id = ssl.id := by
  unfold register_sock_cb at h ⊢
  cases hb : (bio_with_custom_cb b env).1 <;> simp [hb, BIO_set_fd, BIO_get_fd] at h ⊢

/-- No call made by `bio_with_custom_cb` is a handshake, a close or a session
release. -/
theorem bio_with_custom_cb_events (b : Build) (env : ConnEnv) :
    ∀ e ∈ (bio_with_custom_cb b env).2,
      e.isHandshake = false ∧ e.isClose = false ∧ e.isFree = false := by
  cases b <;> rcases env with ⟨a, n, bs, bm, bn, ec, sa, fu⟩ <;>
    cases bs <;> cases bm <;>
    simp [bio_with_custom_cb, bio_with_custom_cb_1_1_1, bio_with_custom_cb_1_0_2,
      Event.isHandshake, Event.isClose, Event.isFree]

/-- No call made by `register_sock_cb` is a handshake, a close or a session
release. -/
theorem register_sock_cb_events (b : Build) (env : ConnEnv) (ssl : SSL) (fd : Int) :
    ∀ e ∈ (register_sock_cb b env ssl fd).events,
      e.isHandshake = false ∧ e.isClose = false ∧ e.isFree = false := by
  intro e he
  unfold register_sock_cb at he
  cases hb : (bio_with_custom_cb b env).1 <;> simp [hb] at he
  all_goals
    rcases he with he | he
    · exact bio_with_custom_cb_events b env e he
    · rcases he with rfl | he
      · simp [Event.isHandshake, Event.isClose, Event.isFree]
      try rcases he with rfl | rfl <;> simp [Event.isHandshake, Event.isClose, Event.isFree]

/-- No call made by `config_ecdhe_keypair` is a handshake, a close or a
session release. -/
theorem config_ecdhe_keypair_events (k : Consts) (env : ConnEnv) (ssl : SSL) :
    ∀ e ∈ (config_ecdhe_keypair k env ssl).2,
      e.isHandshake = false ∧ e.isClose = false ∧ e.isFree = false := by
  unfold config_ecdhe_keypair
  cases env.EC_KEY_new_by_curve_name <;> simp [Event.isHandshake, Event.isClose, Event.isFree]

/-- `create_ssl_object` returns a session exactly when the setup succeeds. -/
theorem create_ssl_object_isSome (b : Build) (k : Consts) (env : ConnEnv) (ctx : SSL_CTX)
    (lfd : Int) :
    (create_ssl_object b k env ctx lfd).1.isSome = setup_ok b env := by
  simp only [create_ssl_object, register_sock_cb_ret, config_ecdhe_keypair_ret, setup_ok]
  by_cases ha : env.do_tcp_accept < 0
  · have : ¬ (0 ≤ env.do_tcp_accept) := by omega
    simp [ha, this]
  · have h0 : 0 ≤ env.do_tcp_accept := by omega
    cases hn : env.SSL_new <;> cases hb : (bio_with_custom_cb b env).1.isSome <;>
      cases he : env.EC_KEY_new_by_curve_name <;> simp [ha, h0]

/-- A session returned by `create_ssl_object` is the one `SSL_new` produced
and reads from the accepted descriptor, which is not negative. -/
theorem create_ssl_object_some (b : Build) (k : Consts) (env : ConnEnv) (ctx : SSL_CTX)
    (lfd : Int) (ssl : SSL) (h : (create_ssl_object b k env ctx lfd).1 = some ssl) :
    0 ≤ env.do_tcp_accept ∧ ssl.fd = env.do_tcp_accept ∧ env.SSL_new = some ssl.id := by
  have hs := create_ssl_object_isSome b k env ctx lfd
  rw [h] at hs
  simp only [Option.isSome_some, setup_ok] at hs
  have hs := hs.symm
  simp only [Bool.and_eq_true, decide_eq_true_eq] at hs
  obtain ⟨⟨⟨h0, hn⟩, hb⟩, he⟩ := hs
  refine ⟨h0, ?_⟩
  have ha : ¬ env.do_tcp_accept < 0 := by omega
  cases hn2 : env.SSL_new with
  | none => simp [hn2] at hn
  | some id =>
    have hr := register_sock_cb_ret b env { id := id, ctx := ctx.id, fd := env.do_tcp_accept }
      env.do_tcp_accept
    simp only [hb, if_true] at hr
    have hf := register_sock_cb_fd b env { id := id, ctx := ctx.id, fd := env.do_tcp_accept }
      env.do_tcp_accept hr
    simp only [create_ssl_object, ha, hn2, hr, config_ecdhe_keypair_ret, he, if_true, if_false,
      ne_eq, not_true_eq_false] at h
    simp only [Option.some.injEq] at h
    subst h
    exact ⟨hf.1, by rw [hf.2]⟩

/-- No call made by `create_ssl_object` is a handshake or a close. -/
theorem create_ssl_object_events (b : Build) (k : Consts) (env : ConnEnv) (ctx : SSL_CTX)
    (lfd : Int) :
    ∀ e ∈ (create_ssl_object b k env ctx lfd).2,
      e.isHandshake = false ∧ e.isClose = false := by
  intro e he
  have hreg := fun ssl fd e h => (register_sock_cb_events b env ssl fd e h)
  have hec := fun ssl e h => (config_ecdhe_keypair_events k env ssl e h)
  simp only [create_ssl_object] at he
  split at he
  · simp at he
    rcases he with rfl | rfl <;> simp [Event.isHandshake, Event.isClose]
  · split at he
    · simp at he
      rcases he with rfl | rfl | rfl <;> simp [Event.isHandshake, Event.isClose]
    · split at he
      · simp only [List.mem_append, List.mem_cons, List.mem_singleton, List.not_mem_nil,
          or_false] at he
        rcases he with ((rfl | rfl | rfl) | he) | rfl | rfl
        any_goals simp [Event.isHandshake, Event.isClose]
        exact ⟨(hreg _ _ e he).1, (hreg _ _ e he).2.1⟩
      · split at he
        all_goals
          simp only [List.mem_append, List.mem_cons, List.mem_singleton, List.not_mem_nil,
            or_false] at he
          rcases he with (((rfl | rfl | rfl) | he) | he) | rfl
          any_goals simp [Event.isHandshake, Event.isClose]
          · exact ⟨(hreg _ _ e he).1, (hreg _ _ e he).2.1⟩
          · exact ⟨(hec _ e he).1, (hec _ e he).2.1⟩

/-- A filter that rejects every element of a list leaves nothing. -/
theorem filter_nil_of_forall {α : Type} (p : α → Bool) (l : List α)
    (h : ∀ e ∈ l, p e = false) : l.filter p = [] := by
  induction l with
  | nil => rfl
  | cons a l ih =>
    have ha := h a (List.mem_cons_self a l)
    simp only [List.filter_cons, ha]
    exact ih fun e he => h e (List.mem_cons_of_mem a he)

/-- The handshake calls of one `do_tls_connection`: one on the session when
the setup produced it, none otherwise. -/
theorem do_tls_connection_handshakes (b : Build) (k : Consts) (env : ConnEnv) (ctx : SSL_CTX)
    (lfd : Int) :
    (do_tls_connection b k env ctx lfd).2.filter Event.isHandshake
      = match (create_ssl_object b k env ctx lfd).1 with
        | none => []
        | some ssl => [Event.SSL_accept ssl.id] := by
  have hc := filter_nil_of_forall Event.isHandshake (create_ssl_object b k env ctx lfd).2
    fun e he => (create_ssl_object_events b k env ctx lfd e he).1
  unfold do_tls_connection
  cases h : (create_ssl_object b k env ctx lfd).1 with
  | none => simp [h, hc, CLOSE_FD, Event.isHandshake, List.filter_append]
  | some ssl =>
    by_cases hs : env.SSL_accept = 1 <;>
      simp [h, hs, hc, CLOSE_FD, Event.isHandshake, List.filter_append]

/-- The descriptor closes of one `do_tls_connection`: exactly one
`CLOSE_FD`, on the accepted descriptor when the setup succeeded and on the
never-assigned local `fd` otherwise. -/
theorem do_tls_connection_closes (b : Build) (k : Consts) (env : ConnEnv) (ctx : SSL_CTX)
    (lfd : Int) :
    (do_tls_connection b k env ctx lfd).2.filter Event.isClose
      = [Event.CLOSE_FD (if setup_ok b env then env.do_tcp_accept else env.fd_uninit)] := by
  have hc := filter_nil_of_forall Event.isClose (create_ssl_object b k env ctx lfd).2
    fun e he => (create_ssl_object_events b k env ctx lfd e he).2
  have hs := create_ssl_object_isSome b k env ctx lfd
  unfold do_tls_connection
  cases h : (create_ssl_object b k env ctx lfd).1 with
  | none =>
    rw [h] at hs
    simp [h, hc, ← hs, CLOSE_FD, Event.isClose, List.filter_append]
  | some ssl =>
    rw [h] at hs
    have hfd := (create_ssl_object_some b k env ctx lfd ssl h).2.1
    by_cases ha : env.SSL_accept = 1 <;>
      simp [h, ha, hc, ← hs, hfd, CLOSE_FD, Event.isClose, List.filter_append]

/-- The result of `do_tls_connection`: `0` when the setup succeeded and the
handshake returned `1`, and `-1` otherwise. -/
theorem do_tls_connection_ret (b : Build) (k : Consts) (env : ConnEnv) (ctx : SSL_CTX)
    (lfd : Int) :
    (do_tls_connection b k env ctx lfd).1
      = if setup_ok b env = true ∧ env.SSL_accept = 1 then 0 else -1 := by
  have hs := create_ssl_object_isSome b k env ctx lfd
  unfold do_tls_connection
  cases h : (create_ssl_object b k env ctx lfd).1 with
  | none =>
    rw [h] at hs
    simp [h, ← hs]
  | some ssl =>
    rw [h] at hs
    by_cases ha : env.SSL_accept = 1 <;> simp [h, ha, ← hs]

/-- The session releases made by `create_ssl_object`: the created session is
released there exactly when a later setup step fails. -/
theorem create_ssl_object_frees (b : Build) (k : Consts) (env : ConnEnv) (ctx : SSL_CTX)
    (lfd : Int) :
    (create_ssl_object b k env ctx lfd).2.filter Event.isFree
      = match env.SSL_new with
        | none => []
        | some id =>
          if 0 ≤ env.do_tcp_accept ∧ setup_ok b env = false then [Event.SSL_free id] else [] := by
  have hreg : ∀ ssl fd, (register_sock_cb b env ssl fd).events.filter Event.isFree = [] :=
    fun ssl fd => filter_nil_of_forall _ _ fun e he => (register_sock_cb_events b env ssl fd e he).2.2
  have hec : ∀ ssl, (config_ecdhe_keypair k env ssl).2.filter Event.isFree = [] :=
    fun ssl => filter_nil_of_forall _ _ fun e he => (config_ecdhe_keypair_events k env ssl e he).2.2
  have hsn : env.SSL_new = none ∨ ∃ id, env.SSL_new = some id := by
    cases env.SSL_new <;> simp
  simp only [create_ssl_object, register_sock_cb_ret, config_ecdhe_keypair_ret, setup_ok]
  by_cases ha : env.do_tcp_accept < 0
  · have : ¬ (0 ≤ env.do_tcp_accept) := by omega
    rcases hsn with hn | ⟨id, hn⟩ <;> simp [ha, this, hn, Event.isFree]
  · have h0 : 0 ≤ env.do_tcp_accept := by omega
    have hbs : (bio_with_custom_cb b env).1.isSome = false
        ∨ (bio_with_custom_cb b env).1.isSome = true := by
      cases (bio_with_custom_cb b env).1.isSome <;> simp
    have hes : env.EC_KEY_new_by_curve_name = false ∨ env.EC_KEY_new_by_curve_name = true := by
      cases env.EC_KEY_new_by_curve_name <;> simp
    rcases hsn with hn | ⟨id, hn⟩ <;> rcases hbs with hb | hb <;> rcases hes with he | he <;>
      simp [ha, h0, hn, hb, he, hreg, hec, Event.isFree, List.filter_append]

/-- The session releases of one `do_tls_connection`: a session that
`SSL_new` produced is released exactly once, and nothing else is. -/
theorem do_tls_connection_frees (b : Build) (k : Consts) (env : ConnEnv) (ctx : SSL_CTX)
    (lfd : Int) :
    (do_tls_connection b k env ctx lfd).2.filter Event.isFree
      = match env.SSL_new with
        | none => []
        | some id => if 0 ≤ env.do_tcp_accept then [Event.SSL_free id] else [] := by
  have hc := create_ssl_object_frees b k env ctx lfd
  have hs := create_ssl_object_isSome b k env ctx lfd
  unfold do_tls_connection
  cases h : (create_ssl_object b k env ctx lfd).1 with
  | none =>
    rw [h] at hs
    have hs2 : setup_ok b env = false := by simpa using hs.symm
    cases hn : env.SSL_new <;>
      simp [h, hn, hs2, hc, CLOSE_FD, Event.isFree, List.filter_append]
  | some ssl =>
    rw [h] at hs
    have hs2 : setup_ok b env = true := by simpa using hs.symm
    obtain ⟨h0, -, hid⟩ := create_ssl_object_some b k env ctx lfd ssl h
    by_cases ha : env.SSL_accept = 1 <;>
      simp [h, ha, hid, hs2, h0, hc, CLOSE_FD, Event.isFree, List.filter_append]

/-- C6: `do_tls_connection` returns `0` exactly when the handshake call was
made and returned `1`, and `-1` in every other case.  When the TCP accept,
the session creation, `register_sock_cb` or `config_ecdhe_keypair` fails, no
handshake call is made and the result is `-1`.  No call makes more than one
handshake call. -/
theorem do_tls_connection_result (b : Build) (k : Consts) (env : ConnEnv) (ctx : SSL_CTX)
    (lfd : Int) :
    ((do_tls_connection b k env ctx lfd).1 = 0 ↔
        (do_tls_connection b k env ctx lfd).2.filter Event.isHandshake ≠ []
          ∧ env.SSL_accept = 1)
    ∧ ((do_tls_connection b k env ctx lfd).1 = 0 ∨ (do_tls_connection b k env ctx lfd).1 = -1)
    ∧ (env.do_tcp_accept < 0 →
        (do_tls_connection b k env ctx lfd).2.filter Event.isHandshake = []
          ∧ (do_tls_connection b k env ctx lfd).1 = -1)
    ∧ (env.SSL_new = none →
        (do_tls_connection b k env ctx lfd).2.filter Event.isHandshake = []
          ∧ (do_tls_connection b k env ctx lfd).1 = -1)
    ∧ ((∃ ssl fd, (register_sock_cb b env ssl fd).ret ≠ 0) →
        (do_tls_connection b k env ctx lfd).2.filter Event.isHandshake = []
          ∧ (do_tls_connection b k env ctx lfd).1 = -1)
    ∧ ((∃ ssl, (config_ecdhe_keypair k env ssl).1 ≠ 0) →
        (do_tls_connection b k env ctx lfd).2.filter Event.isHandshake = []
          ∧ (do_tls_connection b k env ctx lfd).1 = -1)
    ∧ ((do_tls_connection b k env ctx lfd).2.filter Event.isHandshake).length ≤ 1 := by
  have hh := do_tls_connection_handshakes b k env ctx lfd
  have hr := do_tls_connection_ret b k env ctx lfd
  have hs := create_ssl_object_isSome b k env ctx lfd
  have fail : setup_ok b env = false →
      (do_tls_connection b k env ctx lfd).2.filter Event.isHandshake = []
        ∧ (do_tls_connection b k env ctx lfd).1 = -1 := by
    intro hf
    rw [hf] at hs
    have hn : (create_ssl_object b k env ctx lfd).1 = none := by
      cases h : (create_ssl_object b k env ctx lfd).1 <;> simp_all
    rw [hh, hr, hn, hf]
    simp
  refine ⟨?_, ?_, ?_, ?_, ?_, ?_, ?_⟩
  · rw [hh, hr]
    cases h : (create_ssl_object b k env ctx lfd).1 with
    | none =>
      rw [h] at hs
      simp [← hs]
    | some ssl =>
      rw [h] at hs
      by_cases ha : env.SSL_accept = 1 <;> simp [← hs, ha]
  · rw [hr]
    split <;> simp
  · intro ha
    apply fail
    have : ¬ (0 ≤ env.do_tcp_accept) := by omega
    simp [setup_ok, this]
  · intro hn
    apply fail
    simp [setup_ok, hn]
  · rintro ⟨ssl, fd, hne⟩
    apply fail
    rw [register_sock_cb_ret] at hne
    cases hb : (bio_with_custom_cb b env).1.isSome
    · simp [setup_ok, hb]
    · simp [hb] at hne
  · rintro ⟨ssl, hne⟩
    apply fail
    rw [config_ecdhe_keypair_ret] at hne
    cases he : env.EC_KEY_new_by_curve_name
    · simp [setup_ok, he]
    · simp [he] at hne
  · rw [hh]
    cases (create_ssl_object b k env ctx lfd).1 <;> simp

/-- Witness for C6: the TCP accept fails. -/
theorem do_tls_connection_result_witness :
    (do_tls_connection Build.WITH_OPENSSL_1_1_1 sampleConsts
        { goodConn with do_tcp_accept := -1 } sampleCtx 3).2.filter Event.isHandshake = []
    ∧ (do_tls_connection Build.WITH_OPENSSL_1_1_1 sampleConsts
        { goodConn with do_tcp_accept := -1 } sampleCtx 3).1 = -1 :=
  (do_tls_connection_result Build.WITH_OPENSSL_1_1_1 sampleConsts
    { goodConn with do_tcp_accept := -1 } sampleCtx 3).2.2.1 (by decide)

/-- C7, evaluated on the code.  The accept yields descriptor `5`.  When
`SSL_new` then fails, `do_tls_connection` returns `-1` having closed only the
value of its never-assigned local `fd` (here `-1`): descriptor `5` is not
closed.  The same happens when the key-exchange configuration fails: the
session `9` is released once, descriptor `5` is not closed. -/
theorem do_tls_connection_leaks_accepted_fd :
    do_tls_connection Build.WITH_OPENSSL_1_1_1 sampleConsts
        { goodConn with SSL_new := none } sampleCtx 3
      = (-1, [Event.do_tcp_accept 3, Event.SSL_new 1,
              Event.ERR "SSL object creation failed\n", Event.ERR_get_error,
              Event.ERR "TLS ERR: %s\n", Event.CLOSE_FD (-1)])
    ∧ (do_tls_connection Build.WITH_OPENSSL_1_1_1 sampleConsts
        { goodConn with SSL_new := none } sampleCtx 3).2.count (Event.CLOSE_FD 5) = 0
    ∧ (do_tls_connection Build.WITH_OPENSSL_1_1_1 sampleConsts
        { goodConn with EC_KEY_new_by_curve_name := false } sampleCtx 3).2.filter Event.isClose
      = [Event.CLOSE_FD (-1)]
    ∧ (do_tls_connection Build.WITH_OPENSSL_1_1_1 sampleConsts
        { goodConn with EC_KEY_new_by_curve_name := false } sampleCtx 3).2.count
          (Event.SSL_free 9) = 1
    ∧ (do_tls_connection Build.WITH_OPENSSL_1_1_1 sampleConsts
        { goodConn with EC_KEY_new_by_curve_name := false } sampleCtx 3).2.count
          (Event.CLOSE_FD 5) = 0 := by
  refine ⟨rfl, ?_, ?_, ?_, ?_⟩ <;> decide

/-- C10, evaluated on the code.  The accept fails, so no connected descriptor
exists; the never-assigned local `fd` holds `3`, the number of the listening
descriptor.  `do_tls_connection` runs `CLOSE_FD` on that value: the one
descriptor it closes is the listening one. -/
theorem do_tls_connection_closes_stray_fd :
    do_tls_connection Build.WITH_OPENSSL_1_1_1 sampleConsts
        { goodConn with do_tcp_accept := -1, fd_uninit := 3 } sampleCtx 3
      = (-1, [Event.do_tcp_accept 3, Event.ERR "TCP connection establishment failed\n",
              Event.ERR_get_error, Event.ERR "TLS ERR: %s\n", Event.CLOSE_FD 3])
    ∧ (do_tls_connection Build.WITH_OPENSSL_1_1_1 sampleConsts
        { goodConn with do_tcp_accept := -1, fd_uninit := 3 } sampleCtx 3).2.filter Event.isClose
      = [Event.CLOSE_FD 3] := by
  refine ⟨rfl, ?_⟩
  decide

/-- Once the handshake has been reached, the accepted descriptor is the one
descriptor closed and the session is released exactly once. -/
theorem do_tls_connection_cleanup_after_setup (b : Build) (k : Consts) (env : ConnEnv)
    (ctx : SSL_CTX) (lfd : Int) (h : setup_ok b env = true) :
    (do_tls_connection b k env ctx lfd).2.filter Event.isClose
        = [Event.CLOSE_FD env.do_tcp_accept]
    ∧ ∃ id, env.SSL_new = some id
        ∧ (do_tls_connection b k env ctx lfd).2.filter Event.isFree = [Event.SSL_free id] := by
  have hc := do_tls_connection_closes b k env ctx lfd
  have hf := do_tls_connection_frees b k env ctx lfd
  simp only [setup_ok, Bool.and_eq_true, decide_eq_true_eq] at h
  obtain ⟨⟨⟨h0, hn⟩, hb⟩, he⟩ := h
  have hs : setup_ok b env = true := by simp [setup_ok, h0, hn, hb, he]
  refine ⟨by rw [hc, hs]; simp, ?_⟩
  cases hsn : env.SSL_new with
  | none => simp [hsn] at hn
  | some id => exact ⟨id, rfl, by rw [hf, hsn]; simp [h0]⟩

/-! ## Theorems about `tls12_server` -/

/-- The connection calls of a trace are collected piece by piece. -/
theorem connectionArgs_append (xs ys : List SrvEvent) :
    connectionArgs (xs ++ ys) = connectionArgs xs ++ connectionArgs ys := by
  induction xs with
  | nil => rfl
  | cons e es ih => cases e <;> simp [connectionArgs, ih]

/-- One more iteration of the loop appends the body of the next iteration to
the trace. -/
theorem accept_loop_succ (b : Build) (k : Consts) (conn : Nat → ConnEnv) (ctx : SSL_CTX)
    (lfd : Int) (fuel : Nat) :
    ∀ i, (accept_loop b k conn ctx lfd (fuel + 1) i).2
      = (accept_loop b k conn ctx lfd fuel i).2 ++ loop_body b k conn ctx lfd (i + fuel) := by
  induction fuel with
  | zero => intro i; simp [accept_loop]
  | succ n ih =>
    intro i
    have h := ih (i + 1)
    have e : i + 1 + n = i + (n + 1) := by omega
    rw [e] at h
    rw [accept_loop]
    simp only [ne_eq, one_ne_zero, not_false_eq_true, if_true]
    rw [h]
    conv_rhs => rw [accept_loop]
    simp

/-- The loop never yields a return value, makes no call other than its
`do_tls_connection` calls and log lines, and passes the same context and
listening descriptor to every call. -/
theorem accept_loop_runs (b : Build) (k : Consts) (conn : Nat → ConnEnv) (ctx : SSL_CTX)
    (lfd : Int) (fuel : Nat) :
    ∀ i, (accept_loop b k conn ctx lfd fuel i).1 = none
      ∧ connectionArgs (accept_loop b k conn ctx lfd fuel i).2 = List.replicate fuel (ctx, lfd)
      ∧ (accept_loop b k conn ctx lfd fuel i).2.filter SrvEvent.isRelease = []
      ∧ (accept_loop b k conn ctx lfd fuel i).2.filter SrvEvent.isCreateContext = []
      ∧ (accept_loop b k conn ctx lfd fuel i).2.filter SrvEvent.isListen = [] := by
  induction fuel with
  | zero => intro i; simp [accept_loop, connectionArgs]
  | succ n ih =>
    intro i
    obtain ⟨h1, h2, h3, h4, h5⟩ := ih (i + 1)
    rw [accept_loop]
    simp only [ne_eq, one_ne_zero, not_false_eq_true, if_true]
    refine ⟨h1, ?_, ?_, ?_, ?_⟩
    · rw [connectionArgs_append, h2]
      simp only [loop_body]
      split <;> simp [connectionArgs, List.replicate_succ]
    · rw [List.filter_append, h3]
      simp only [loop_body]
      split <;> simp [SrvEvent.isRelease]
    · rw [List.filter_append, h4]
      simp only [loop_body]
      split <;> simp [SrvEvent.isCreateContext]
    · rw [List.filter_append, h5]
      simp only [loop_body]
      split <;> simp [SrvEvent.isListen]

/-- Every sequence of per-connection results arises: for each choice of
successes and failures there are connection outcomes under which the `i`-th
`do_tls_connection` call returns `0` or `-1` as chosen. -/
theorem connection_results_arise (b : Build) (k : Consts) (ctx : SSL_CTX) (lfd : Int)
    (res : Nat → Bool) :
    ∃ conn : Nat → ConnEnv, ∀ i,
      (do_tls_connection b k (conn i) ctx lfd).1 = if res i then 0 else -1 := by
  refine ⟨fun i => { goodConn with SSL_accept := if res i then 1 else 0 }, fun i => ?_⟩
  rw [do_tls_connection_ret]
  have hs : ∀ v, setup_ok b { goodConn with SSL_accept := v } = true := by
    intro v
    cases b <;> simp [setup_ok, goodConn, bio_with_custom_cb, bio_with_custom_cb_1_1_1,
      bio_with_custom_cb_1_0_2]
  cases hres : res i <;> simp [hs, hres]

/-- C8: both startup failures are fatal.  When `create_context` fails,
`tls12_server` returns `-1` having made no other call: no listening socket is
created and `do_tls_connection` is never called.  When `create_context`
succeeds and `do_tcp_listen` fails, it returns `-1` and `do_tls_connection`
is never called.  A `do_tls_connection` call occurs only when both
succeeded, and `create_context` is called exactly once in every run. -/
theorem tls12_server_startup (b : Build) (k : Consts) (env : SrvEnv) (fuel : Nat) :
    ((create_context b k env.ctx).1 = none →
        tls12_server b k env fuel
          = (some (-1), [SrvEvent.create_context (create_context b k env.ctx).2 none])
        ∧ (tls12_server b k env fuel).2.filter SrvEvent.isListen = []
        ∧ (tls12_server b k env fuel).2.filter SrvEvent.isConnection = [])
    ∧ (∀ ctx, (create_context b k env.ctx).1 = some ctx → env.do_tcp_listen < 0 →
        (tls12_server b k env fuel).1 = some (-1)
        ∧ (tls12_server b k env fuel).2.filter SrvEvent.isConnection = [])
    ∧ ((tls12_server b k env fuel).2.filter SrvEvent.isConnection ≠ [] →
        (create_context b k env.ctx).1.isSome = true ∧ 0 ≤ env.do_tcp_listen)
    ∧ ((tls12_server b k env fuel).2.filter SrvEvent.isCreateContext).length = 1 := by
  have hl := accept_loop_runs b k env.conn
  cases hc : (create_context b k env.ctx).1 with
  | none =>
    simp [tls12_server, hc, SrvEvent.isListen, SrvEvent.isConnection,
      SrvEvent.isCreateContext]
  | some ctx =>
    by_cases hlfd : env.do_tcp_listen < 0
    · simp [tls12_server, hc, hlfd, SrvEvent.isConnection, SrvEvent.isCreateContext]
    · have h0 : 0 ≤ env.do_tcp_listen := by omega
      obtain ⟨-, -, -, h4, -⟩ := hl ctx env.do_tcp_listen fuel 0
      simp [tls12_server, hc, hlfd, h0, h4, SrvEvent.isCreateContext, List.filter_append]

/-- Witness for C8: the certificate cannot be loaded, so `create_context`
fails. -/
theorem tls12_server_startup_witness :
    tls12_server Build.WITH_OPENSSL_1_1_1 sampleConsts
        { goodSrv with ctx := { goodSrv.ctx with SSL_CTX_use_certificate_file := 0 } } 7
      = (some (-1),
         [SrvEvent.create_context
            (create_context Build.WITH_OPENSSL_1_1_1 sampleConsts
              { goodSrv.ctx with SSL_CTX_use_certificate_file := 0 }).2 none]) :=
  ((tls12_server_startup Build.WITH_OPENSSL_1_1_1 sampleConsts
      { goodSrv with ctx := { goodSrv.ctx with SSL_CTX_use_certificate_file := 0 } } 7).1
    rfl).1

/-- The statements of the loop taken by themselves: once the context is built
and the listening descriptor obtained, for every `n`, after `n` iterations
`tls12_server` has not returned; it has made exactly `n` `do_tls_connection`
calls, each with the same context and the same listening descriptor number;
the `(n+1)`-th iteration follows the `n`-th, adding one more such call; and no
statement of `tls12_server` itself has released the context or the listening
descriptor.  What the called `do_tls_connection` closes is not covered
here. -/
theorem tls12_server_loop_forever (b : Build) (k : Consts) (env : SrvEnv) (ctx : SSL_CTX)
    (hctx : (create_context b k env.ctx).1 = some ctx) (hlfd : 0 ≤ env.do_tcp_listen)
    (n : Nat) :
    (tls12_server b k env n).1 = none
    ∧ connectionArgs (tls12_server b k env n).2 = List.replicate n (ctx, env.do_tcp_listen)
    ∧ (tls12_server b k env (n + 1)).2
        = (tls12_server b k env n).2
          ++ [SrvEvent.do_tls_connection ctx env.do_tcp_listen
                (do_tls_connection b k (env.conn n) ctx env.do_tcp_listen).2
                (do_tls_connection b k (env.conn n) ctx env.do_tcp_listen).1,
              if (do_tls_connection b k (env.conn n) ctx env.do_tcp_listen).1 ≠ 0
              then SrvEvent.ERR "TLS connection failed\n\n\n"
              else SrvEvent.DBG "TLS connection SUCCEEDED\n\n\n"]
    ∧ (tls12_server b k env n).2.filter SrvEvent.isRelease = [] := by
  have hneg : ¬ env.do_tcp_listen < 0 := by omega
  obtain ⟨h1, h2, h3, -, -⟩ := accept_loop_runs b k env.conn ctx env.do_tcp_listen n 0
  have hs := accept_loop_succ b k env.conn ctx env.do_tcp_listen n 0
  simp only [Nat.zero_add] at hs
  refine ⟨?_, ?_, ?_, ?_⟩
  · simp [tls12_server, hctx, hneg, h1]
  · simp [tls12_server, hctx, hneg, connectionArgs_append, connectionArgs, h2]
  · simp only [tls12_server, hctx, hneg, if_false, hs, loop_body]
    simp
  · simp [tls12_server, hctx, hneg, List.filter_append, h3, SrvEvent.isRelease]

/-- The loop statements at a concrete run: all connections succeed, four
iterations. -/
theorem tls12_server_loop_forever_witness :
    (tls12_server Build.WITH_OPENSSL_1_1_1 sampleConsts goodSrv 4).1 = none
    ∧ connectionArgs (tls12_server Build.WITH_OPENSSL_1_1_1 sampleConsts goodSrv 4).2
        = List.replicate 4 (sampleCtx, 3) :=
  ⟨(tls12_server_loop_forever Build.WITH_OPENSSL_1_1_1 sampleConsts goodSrv sampleCtx rfl
      (by decide) 4).1,
   (tls12_server_loop_forever Build.WITH_OPENSSL_1_1_1 sampleConsts goodSrv sampleCtx rfl
      (by decide) 4).2.1⟩

/-- The context is never released inside the loop, whatever the connections
do: no call of a run that entered the loop is an `SSL_CTX_free`. -/
theorem tls12_server_loop_keeps_context (b : Build) (k : Consts) (env : SrvEnv) (ctx : SSL_CTX)
    (hctx : (create_context b k env.ctx).1 = some ctx) (hlfd : 0 ≤ env.do_tcp_listen)
    (n : Nat) :
    (tls12_server b k env n).2.filter SrvEvent.isRelease = []
    ∧ ∀ e ∈ (tls12_server b k env n).2, ∀ c lfd tr r,
        e = SrvEvent.do_tls_connection c lfd tr r →
          tr.filter (fun x => match x with
            | Event.SSL_CTX_free _ => true
            | _ => false) = [] := by
  have hneg : ¬ env.do_tcp_listen < 0 := by omega
  obtain ⟨-, -, h3, -, -⟩ := accept_loop_runs b k env.conn ctx env.do_tcp_listen n 0
  refine ⟨by simp [tls12_server, hctx, hneg, List.filter_append, h3, SrvEvent.isRelease], ?_⟩
  have key : ∀ (cenv : ConnEnv) (c : SSL_CTX) (l : Int),
      (do_tls_connection b k cenv c l).2.filter (fun x => match x with
            | Event.SSL_CTX_free _ => true
            | _ => false) = [] := by
    intro cenv c l
    apply filter_nil_of_forall
    intro e he
    cases e with
    | SSL_CTX_free id =>
      exfalso
      unfold do_tls_connection at he
      have hcreate : Event.SSL_CTX_free id ∉ (create_ssl_object b k cenv c l).2 := by
        intro hin
        simp only [create_ssl_object] at hin
        split at hin
        · simp at hin
        · split at hin
          · simp at hin
          · have hnr : ∀ ssl fd, Event.SSL_CTX_free id ∉ (register_sock_cb b cenv ssl fd).events := by
              intro ssl fd hm
              unfold register_sock_cb at hm
              have hnb : Event.SSL_CTX_free id ∉ (bio_with_custom_cb b cenv).2 := by
                cases b <;>
                  simp only [bio_with_custom_cb, bio_with_custom_cb_1_1_1,
                    bio_with_custom_cb_1_0_2] <;>
                  (try split) <;> simp
              cases hb : (bio_with_custom_cb b cenv).1 <;> simp [hb, hnb] at hm
            have hne : ∀ ssl, Event.SSL_CTX_free id ∉ (config_ecdhe_keypair k cenv ssl).2 := by
              intro ssl hm
              unfold config_ecdhe_keypair at hm
              split at hm <;> simp at hm
            split at hin
            · simp [hnr] at hin
            · split at hin <;> simp [hnr, hne] at hin
      cases hc : (create_ssl_object b k cenv c l).1 with
      | none => simp [hc, hcreate, CLOSE_FD] at he
      | some ssl =>
        by_cases ha : cenv.SSL_accept = 1 <;> simp [hc, ha, hcreate, CLOSE_FD] at he
    | _ => rfl
  intro e he c lfd tr r heq
  subst heq
  have hin : SrvEvent.do_tls_connection c lfd tr r
      ∈ (accept_loop b k env.conn ctx env.do_tcp_listen n 0).2 := by
    simp [tls12_server, hctx, hneg] at he
    exact he
  have gen : ∀ m i, SrvEvent.do_tls_connection c lfd tr r
      ∈ (accept_loop b k env.conn ctx env.do_tcp_listen m i).2 →
      tr.filter (fun x => match x with
            | Event.SSL_CTX_free _ => true
            | _ => false) = [] := by
    intro m
    induction m with
    | zero => intro i h; simp [accept_loop] at h
    | succ m ih =>
      intro i h
      rw [accept_loop] at h
      simp only [ne_eq, one_ne_zero, not_false_eq_true, if_true, List.mem_append] at h
      rcases h with h | h
      · simp only [loop_body] at h
        split at h <;> simp at h <;> (obtain ⟨-, -, rfl, -⟩ := h; exact key _ _ _)
      · exact ih (i + 1) h
  exact gen n 0 hin

/-- Witness of `tls12_server_loop_keeps_context` at the run `strayCloseSrv`. -/
theorem tls12_server_loop_keeps_context_witness :
    (tls12_server Build.WITH_OPENSSL_1_1_1 sampleConsts strayCloseSrv 2).2.filter
      SrvEvent.isRelease = [] :=
  (tls12_server_loop_keeps_context Build.WITH_OPENSSL_1_1_1 sampleConsts strayCloseSrv
    sampleCtx rfl (by decide) 2).1

/-- C9, evaluated on the code.  The context is built and `do_tcp_listen`
yields descriptor `3`, so the loop is entered.  The first connection fails at
the TCP accept while the never-assigned local `fd` of `do_tls_connection`
holds `3`.  The loop does go on: after two iterations `tls12_server` has not
returned and has called `do_tls_connection` twice with the same context and
descriptor number `3`, and none of its own statements is a release.  But the
calls made within the first iteration include `CLOSE_FD 3`: the listening
descriptor is released from within the loop, before the second call uses
it. -/
theorem tls12_server_loop_closes_listening_fd :
    (tls12_server Build.WITH_OPENSSL_1_1_1 sampleConsts strayCloseSrv 2).1 = none
    ∧ connectionArgs (tls12_server Build.WITH_OPENSSL_1_1_1 sampleConsts strayCloseSrv 2).2
        = [(sampleCtx, 3), (sampleCtx, 3)]
    ∧ connectionResults (tls12_server Build.WITH_OPENSSL_1_1_1 sampleConsts strayCloseSrv 2).2
        = [-1, 0]
    ∧ (tls12_server Build.WITH_OPENSSL_1_1_1 sampleConsts strayCloseSrv 2).2.filter
        SrvEvent.isRelease = []
    ∧ (flatTrace (tls12_server Build.WITH_OPENSSL_1_1_1 sampleConsts strayCloseSrv 1).2).filter
        Event.isClose = [Event.CLOSE_FD 3]
    ∧ (flatTrace (tls12_server Build.WITH_OPENSSL_1_1_1 sampleConsts strayCloseSrv 2).2).filter
        Event.isClose = [Event.CLOSE_FD 3, Event.CLOSE_FD 5] := by
  refine ⟨rfl, ?_, ?_, ?_, ?_, ?_⟩ <;> decide

end IFLForTLS
